import Mathlib

/-!
Verification of the CoolPath heat-aware routing core.

Shallow embedding of the Python sources:
  * `app_Version2.py`        — scenario multiplier selection, the per-edge cost
    recompute loop, `_haversine`, `_nearest_node`, random-route node selection;
  * `phase2_processing_Version2.py` — the HEI derivation loop and the score
    index reconstruction;
  * `test_route_Version2.py` — the pre-routing cool_cost repair pass and the
    start/end node selection.

Python float values are modelled exactly: a finite float is an exact rational
(`Fl.num`) and `float('nan')` is `Fl.nan`; arithmetic propagates NaN and NaN
compares false under every order relation, as in IEEE floats.  Edge attribute
values (`Val`) can be a float, NaN, a string, a bool or Python `None`; an
absent dictionary key is `Option.none` at the field level.  `pyFloat` models
Python's `float(...)` coercion (`none` = the call raises).  String parsing
models the plain decimal-literal fragment of `float()`; every concrete string
used in a theorem below parses (or fails to parse) identically in Python.
-/

/-- A Python float: a finite value (exact rational) or NaN. -/
inductive Fl where
  | num (q : ℚ)
  | nan
deriving DecidableEq

/-- Float multiplication; NaN propagates. -/
def Fl.mul : Fl → Fl → Fl
  | .num a, .num b => .num (a * b)
  | _, _ => .nan

/-- Float addition; NaN propagates. -/
def Fl.add : Fl → Fl → Fl
  | .num a, .num b => .num (a + b)
  | _, _ => .nan

/-- An edge-attribute value as stored in the graph's per-edge dict. -/
inductive Val where
  | F (q : ℚ)
  | NaN
  | S (s : String)
  | B (b : Bool)
  | PyNone
deriving DecidableEq

instance {ε α : Type} [DecidableEq ε] [DecidableEq α] : DecidableEq (Except ε α) := fun a b =>
  match a, b with
  | .ok x, .ok y => decidable_of_iff (x = y) (by simp)
  | .error x, .error y => decidable_of_iff (x = y) (by simp)
  | .ok _, .error _ => isFalse (fun hc => Except.noConfusion hc)
  | .error _, .ok _ => isFalse (fun hc => Except.noConfusion hc)

/-- Store a float back into an attribute slot. -/
def flToVal : Fl → Val
  | .num q => .F q
  | .nan => .NaN

/-- Strip leading and trailing whitespace (Python `str.strip`). -/
def trimChars (cs : List Char) : List Char :=
  ((cs.dropWhile Char.isWhitespace).reverse.dropWhile Char.isWhitespace).reverse

/-- Split on a separator character (`"a.b".split "."`-style; keeps empty parts). -/
def splitOnChar (sep : Char) (cs : List Char) : List (List Char) :=
  cs.foldr
    (fun c acc =>
      if c = sep then [] :: acc
      else
        match acc with
        | a :: rest => (c :: a) :: rest
        | [] => [[c]])
    [[]]

/-- Accumulate decimal digits; `none` on a non-digit character. -/
def digitsToNat? (cs : List Char) : Option ℕ :=
  cs.foldl
    (fun acc c =>
      match acc with
      | none => none
      | some n => if c.isDigit then some (10 * n + (c.toNat - 48)) else none)
    (some 0)

/-- Parse an unsigned decimal literal (`"5"`, `"5."`, `".5"`, `"1.25"`). -/
def parseUnsigned? (t : List Char) : Option ℚ :=
  match splitOnChar '.' t with
  | [a] =>
      if a.isEmpty then none
      else (digitsToNat? a).map (fun n => (n : ℚ))
  | [a, b] =>
      if a.isEmpty && b.isEmpty then none
      else
        match digitsToNat? a, digitsToNat? b with
        | some n, some f => some ((n : ℚ) + (f : ℚ) / (10 ^ b.length : ℚ))
        | _, _ => none
  | _ => none

/-- Parse an optionally signed decimal literal. -/
def parseSignedQ? (t : List Char) : Option ℚ :=
  match t with
  | '-' :: rest => (parseUnsigned? rest).map Neg.neg
  | '+' :: rest => parseUnsigned? rest
  | _ => parseUnsigned? t

/-- Model of Python `float(s)` on a string (decimal-literal fragment plus "nan"). -/
def parseFloat (s : String) : Option Fl :=
  let t := trimChars s.data
  let lower := t.map Char.toLower
  if lower = "nan".data ∨ lower = "+nan".data ∨ lower = "-nan".data then some .nan
  else (parseSignedQ? t).map .num

/-- Model of Python `float(v)`; `none` means the call raises. -/
def pyFloat : Val → Option Fl
  | .F q => some (.num q)
  | .NaN => some .nan
  | .B b => some (.num (if b then 1 else 0))
  | .S s => parseFloat s
  | .PyNone => none

/-- The edge attribute dict, restricted to the fields the core reads/writes.
`none` = the key is absent from the dict. -/
structure EdgeData where
  length : Option Val
  green_score : Option Val
  hei : Option Val
  cool_cost : Option Val
  current_cost : Option Val
deriving DecidableEq

/-- `float(data.get('length', 10))` with the bare `except: length = 10.0`
(app_Version2.py lines 236-240). -/
def coerceLength (d : EdgeData) : Fl :=
  match d.length with
  | none => .num 10
  | some v => (pyFloat v).getD (.num 10)

/-- `float(data.get('hei', 0.5))` with the bare `except: hei = 0.5`
(app_Version2.py lines 242-245). -/
def coerceHei (d : EdgeData) : Fl :=
  match d.hei with
  | none => .num (1 / 2)
  | some v => (pyFloat v).getD (.num (1 / 2))

/-- One iteration of the scenario cost-recompute loop: writes
`data['current_cost'] = length * (1 + (hei * heat_multiplier))`
(app_Version2.py lines 235-248). -/
def recompute (m : ℚ) (d : EdgeData) : EdgeData :=
  { d with current_cost := some (flToVal ((coerceLength d).mul ((Fl.num 1).add ((coerceHei d).mul (Fl.num m))))) }

/-- The full-graph recompute pass: the loop body applied to every edge. -/
def recomputeAll (m : ℚ) (es : List EdgeData) : List EdgeData :=
  es.map (recompute m)

/-- Does `pat` occur as a substring (Python `pat in s` on the char list)? -/
def hasSub (pat : List Char) : List Char → Bool
  | [] => pat.isPrefixOf ([] : List Char)
  | c :: rest => pat.isPrefixOf (c :: rest) || hasSub pat rest

/-- Python `pat in s` for strings. -/
def strContains (s pat : String) : Bool :=
  hasSub pat.data s.data

/-- The two radio options offered by the sidebar (app_Version2.py lines 165-168). -/
def scenarioOptions : List String :=
  ["Standard Day (25°C)", "Heatwave Alert (40°C)"]

/-- `heat_multiplier = 10` default, bumped to 30 when `"Heatwave" in scenario`
(app_Version2.py lines 171-174). -/
def heat_multiplier (scenario : String) : ℚ :=
  if strContains scenario "Heatwave" then 30 else 10

/-- The HEI stored by the phase-2 derivation loop
(phase2_processing_Version2.py lines 58-65):
`green_score = data.get('green_score', 0.1)`, `hei = 1.0 - green_score`.
Result `none` means the subtraction raises a TypeError (non-numeric value). -/
def phase2Hei (d : EdgeData) : Option Fl :=
  match d.green_score.getD (Val.F (1 / 10)) with
  | .F q => some (.num (1 - q))
  | .NaN => some .nan
  | .B b => some (.num (1 - (if b then 1 else 0)))
  | .S _ => none
  | .PyNone => none

/-- Modelled from the spec: `hei = clamp(1.0 - green_score, 0.0, 1.0)` —
the spec's stated HEI formula, for comparison with `phase2Hei`. -/
def heiClampSpec (g : ℚ) : ℚ :=
  max 0 (min 1 (1 - g))

/-- `float(data.get('length', 10.0))` with no enclosing try
(test_route_Version2.py lines 14, 27, 29): `none` means the call raises. -/
def lengthFloat (d : EdgeData) : Option Fl :=
  match d.length with
  | none => some (.num 10)
  | some v => pyFloat v

/-- Result of `ast.literal_eval` on a string, restricted to what the repair
pass inspects: a list/tuple literal of plain signed decimal numbers, or some
other valid literal (`other`); `none` means `literal_eval` raises. -/
inductive LitRes where
  | lst (xs : List Fl)
  | other
deriving DecidableEq

/-- Parse every comma-separated part as a signed decimal number. -/
def parseParts (parts : List (List Char)) : Option (List Fl) :=
  let vals := parts.map (fun p => (parseSignedQ? (trimChars p)).map Fl.num)
  if vals.all Option.isSome then some vals.reduceOption else none

/-- Model of `ast.literal_eval` on the literal fragment the repair pass can
meet: list and tuple displays of signed decimal numbers and bare signed
decimal numbers.  As in Python, `[x]` is a one-element list but `(x)` is just
the parenthesised number `x` (only `(x,)` is a one-element tuple), one
trailing comma is allowed after a comma-separated element, and `[]`/`()` are
the empty list/tuple. -/
def literalEval (s : String) : Option LitRes :=
  let t := trimChars s.data
  let bra : Option (Bool × List Char) :=
    if 2 ≤ t.length ∧ ['['].isPrefixOf t ∧ [']'].isSuffixOf t then some (false, (t.drop 1).dropLast)
    else if 2 ≤ t.length ∧ ['('].isPrefixOf t ∧ [')'].isSuffixOf t then some (true, (t.drop 1).dropLast)
    else none
  match bra with
  | some (isParen, inner) =>
      if (trimChars inner).isEmpty then some (.lst [])
      else
        match splitOnChar ',' inner with
        | [single] =>
            match parseSignedQ? (trimChars single) with
            | some q => some (if isParen then .other else .lst [.num q])
            | none => none
        | parts =>
            let parts2 :=
              if (trimChars (parts.getLastD [])).isEmpty then parts.dropLast else parts
            match parseParts parts2 with
            | some xs => some (.lst xs)
            | none => none
  | none =>
      match parseSignedQ? t with
      | some _ => some .other
      | none => none

/-- One iteration of the cool_cost repair pass (test_route_Version2.py lines
11-30).  Returns the updated edge plus the `missing_cool` / `fixed_cool`
increment flags; `Except.error` means an uncaught exception (the script
crashes).  Branches, in source order:
  * key absent or value `None` → `float(data.get('length', 10.0))` (line 14,
    not guarded by any try);
  * `float(val)` succeeds → store it (line 19; a NaN value is kept);
  * otherwise `ast.literal_eval` on strings: a nonempty list/tuple literal
    yields its first element, anything else (or a raise) falls back to
    `float(data.get('length', 10.0))`, whose own failure is re-caught once and
    retried at line 29, where a second failure propagates. -/
def repairCool (d : EdgeData) : Except Unit (EdgeData × Bool × Bool) :=
  match d.cool_cost with
  | none =>
      match lengthFloat d with
      | some f => .ok ({ d with cool_cost := some (flToVal f) }, true, false)
      | none => .error ()
  | some .PyNone =>
      match lengthFloat d with
      | some f => .ok ({ d with cool_cost := some (flToVal f) }, true, false)
      | none => .error ()
  | some v =>
      match pyFloat v with
      | some f => .ok ({ d with cool_cost := some (flToVal f) }, false, false)
      | none =>
          let parsed : Option LitRes :=
            match v with
            | .S s => literalEval s
            | _ => some .other
          let fromList : Option Fl :=
            match parsed with
            | some (.lst (x :: _)) => some x
            | _ => none
          match fromList with
          | some f => .ok ({ d with cool_cost := some (flToVal f) }, false, true)
          | none =>
              match lengthFloat d with
              | some g => .ok ({ d with cool_cost := some (flToVal g) }, false, true)
              | none => .error ()

/-- The repair pass over the whole edge list, accumulating the
`missing_cool` and `fixed_cool` counters (test_route_Version2.py lines 9-33). -/
def repairPass (es : List EdgeData) : Except Unit (List EdgeData × ℕ × ℕ) :=
  es.foldl
    (fun acc d =>
      match acc with
      | .error e => .error e
      | .ok (out, mc, fc) =>
          match repairCool d with
          | .error e => .error e
          | .ok (d2, m, f) =>
              .ok (out ++ [d2], mc + (if m then 1 else 0), fc + (if f then 1 else 0)))
    (.ok ([], 0, 0))

/-- The shape information of the scored GeoDataFrame that the index
reconstruction inspects (phase2_processing_Version2.py lines 35-47). -/
structure GdfInfo where
  isMultiIndex3 : Bool
  cols : List String
  nrows : ℕ
deriving DecidableEq

/-- Which branch rebuilt the `(u, v, key)` index. -/
inductive IndexMode where
  | preIndexed
  | fromCols
  | positional
deriving DecidableEq

/-- The `gdf_scored_indexed` reconstruction chain
(phase2_processing_Version2.py lines 35-47): already a 3-level MultiIndex;
else set_index from the `u`, `v`, `key` columns; else positional when the row
count matches the edge count; else `raise ValueError`. -/
def rebuildScoredIndex (g : GdfInfo) (edgeCount : ℕ) : Except String IndexMode :=
  if g.isMultiIndex3 then .ok .preIndexed
  else if "u" ∈ g.cols ∧ "v" ∈ g.cols ∧ "key" ∈ g.cols then .ok .fromCols
  else if g.nrows = edgeCount then .ok .positional
  else .error "Cannot rebuild edge index. Ensure GeoJSON includes u, v, key columns or matches the original edge count."

/-- Is the reconstruction successful? -/
def rebuildOk (g : GdfInfo) (edgeCount : ℕ) : Bool :=
  match rebuildScoredIndex g edgeCount with
  | .ok _ => true
  | .error _ => false

/-- The start/end node selection of the routing test script
(test_route_Version2.py lines 53-69).  `compNodes` is the largest weakly
connected component as computed by networkx, `gnodes` the full node list.
Lines 61-64 pick `comp_nodes[0]` and `comp_nodes[min(50, len-1)]` "to ensure a
path exists"; lines 67-69 then unconditionally overwrite both picks with
`nodes[40]` and `nodes[90]` from the raw node list.  `Except.error` models the
IndexError raised when the graph has at most 90 nodes. -/
def testRouteSelection (gnodes compNodes : List ℕ) : Except Unit (ℕ × ℕ) :=
  let compPick : Option (ℕ × ℕ) :=
    if compNodes.isEmpty then none
    else some (compNodes.getD 0 0, compNodes.getD (min 50 (compNodes.length - 1)) 0)
  let overwritten : Except Unit (ℕ × ℕ) :=
    match gnodes[40]?, gnodes[90]? with
    | some s, some e => .ok (s, e)
    | _, _ => .error ()
  let _ := compPick
  overwritten

/-- `math.radians`. -/
noncomputable def deg2rad (x : ℝ) : ℝ :=
  x * (Real.pi / 180)

/-- `math.atan2 y x`. -/
noncomputable def atan2 (y x : ℝ) : ℝ :=
  if 0 < x then Real.arctan (y / x)
  else if x < 0 then
    (if 0 ≤ y then Real.arctan (y / x) + Real.pi else Real.arctan (y / x) - Real.pi)
  else (if 0 < y then Real.pi / 2 else if y < 0 then -(Real.pi / 2) else 0)

/-- `_haversine` (app_Version2.py lines 115-122): great-circle distance with
Earth radius 6,371,000 m. -/
noncomputable def _haversine (lat1 lon1 lat2 lon2 : ℝ) : ℝ :=
  let r : ℝ := 6371000
  let phi1 := deg2rad lat1
  let phi2 := deg2rad lat2
  let dphi := deg2rad (lat2 - lat1)
  let dlambda := deg2rad (lon2 - lon1)
  let a := Real.sin (dphi / 2) ^ 2 + Real.cos phi1 * Real.cos phi2 * Real.sin (dlambda / 2) ^ 2
  2 * r * atan2 (Real.sqrt a) (Real.sqrt (1 - a))

/-- The distance `_nearest_node` computes for a candidate node entry
`(id, lat, lon)`. -/
noncomputable def nnDist (lat lon : ℝ) (p : ℕ × ℝ × ℝ) : ℝ :=
  _haversine lat lon p.2.1 p.2.2

open Classical in
/-- One iteration of the `_nearest_node` scan: update `(best_node, best_dist)`
when `d < best_dist` (app_Version2.py lines 194-198).  `best_dist` lives in
`EReal`, whose `⊤` models the initial `float("inf")`. -/
noncomputable def nnStep (lat lon : ℝ) (best : Option ℕ × EReal) (p : ℕ × ℝ × ℝ) : Option ℕ × EReal :=
  if ((nnDist lat lon p : ℝ) : EReal) < best.2
  then (some p.1, ((nnDist lat lon p : ℝ) : EReal))
  else best

/-- `_nearest_node` (app_Version2.py lines 191-199): linear scan over the node
collection, starting from `(None, float("inf"))`. -/
noncomputable def _nearest_node (lat lon : ℝ) (nodes : List (ℕ × ℝ × ℝ)) : Option ℕ × EReal :=
  nodes.foldl (nnStep lat lon) (none, (⊤ : EReal))

/-- A one-node collection used to witness the nearest-node theorem. -/
def demoNodes : List (ℕ × ℝ × ℝ) :=
  [(5, 1, 2)]

/-- C1 counterexample: an edge storing hei = -1.0 (as the unclamped derivation
produces from green_score = 2.0) and length = 100 gets
current_cost = 100 * (1 + (-1) * 10) = -900 < 100 = length under multiplier 10,
refuting `current_cost >= length`. -/
theorem negative_hei_cost_below_length :
    coerceLength ⟨some (.F 100), none, some (.F (-1)), none, none⟩ = .num 100
    ∧ coerceHei ⟨some (.F 100), none, some (.F (-1)), none, none⟩ = .num (-1)
    ∧ (recompute 10 ⟨some (.F 100), none, some (.F (-1)), none, none⟩).current_cost
        = some (.F (-900))
    ∧ ¬ ((100 : ℚ) ≤ -900) := by
  refine ⟨rfl, rfl, ?_, by norm_num⟩
  simp only [recompute, coerceLength, coerceHei, pyFloat, Option.getD_some, Fl.mul, Fl.add,
    flToVal, Val.F.injEq, Option.some.injEq]
  norm_num

/-- C1 (amended): after a scenario-triggered recompute with multiplier m ≥ 0,
`current_cost = length * (1 + hei * m)` for the coerced length and hei values;
when the coerced length is a positive number and the coerced hei a
nonnegative number, `current_cost ≥ length` with equality iff hei = 0 or
m = 0.  (The code never clamps hei, so a stored negative hei breaks the
inequality, as the counterexample shows.) -/
theorem cost_recompute_formula_and_bound (m : ℚ) (d : EdgeData) (L H : ℚ)
    (hm : 0 ≤ m) (hL : coerceLength d = .num L) (hLpos : 0 < L)
    (hH : coerceHei d = .num H) (hHnn : 0 ≤ H) :
    (recompute m d).current_cost = some (.F (L * (1 + H * m)))
    ∧ L ≤ L * (1 + H * m)
    ∧ (L * (1 + H * m) = L ↔ H = 0 ∨ m = 0) := by
  refine ⟨?_, ?_, ?_, ?_⟩
  · simp [recompute, hL, hH, Fl.mul, Fl.add, flToVal]
  · nlinarith [mul_nonneg hHnn hm, mul_nonneg hLpos.le (mul_nonneg hHnn hm)]
  · intro he
    have h1 : L * (H * m) = 0 := by linear_combination he
    have h2 : H * m = 0 := by
      rcases mul_eq_zero.mp h1 with h | h
      · exact absurd h (ne_of_gt hLpos)
      · exact h
    exact mul_eq_zero.mp h2
  · rintro (rfl | rfl) <;> ring

/-- Witness for the amended C1 theorem at length 100, hei 0.5, multiplier 10. -/
theorem cost_recompute_formula_and_bound_witness :
    (recompute 10 ⟨some (.F 100), none, some (.F (1 / 2)), none, none⟩).current_cost
        = some (.F (100 * (1 + (1 / 2) * 10)))
    ∧ (100 : ℚ) ≤ 100 * (1 + (1 / 2) * 10)
    ∧ (100 * (1 + (1 / 2) * 10) = (100 : ℚ) ↔ (1 / 2 : ℚ) = 0 ∨ (10 : ℚ) = 0) :=
  cost_recompute_formula_and_bound 10 ⟨some (.F 100), none, some (.F (1 / 2)), none, none⟩
    100 (1 / 2) (by norm_num) rfl (by norm_num) rfl (by norm_num)

/-- C2 counterexample: green_score = 2.0 (out of range) yields hei = -1.0,
outside [0,1]; the spec's clamp would give 0. -/
theorem hei_not_clamped_out_of_range :
    phase2Hei ⟨none, some (.F 2), none, none, none⟩ = some (.num (-1))
    ∧ ¬ ((0 : ℚ) ≤ -1)
    ∧ heiClampSpec 2 = 0
    ∧ Fl.num (-1) ≠ Fl.num (heiClampSpec 2) := by
  have hclamp : heiClampSpec 2 = 0 := by
    simp only [heiClampSpec]
    norm_num
  refine ⟨?_, by norm_num, hclamp, ?_⟩
  · simp only [phase2Hei, Option.getD_some, Option.some.injEq, Fl.num.injEq]
    norm_num
  · rw [hclamp]
    simp only [ne_eq, Fl.num.injEq]
    norm_num

/-- C2 (amended): the derivation computes hei = 1 - green_score with no clamp,
so hei lies in [0,1] exactly when green_score does; an absent green_score is
defaulted to 0.1, and a non-numeric (string) green_score makes the derivation
raise instead of being defaulted. -/
theorem hei_unclamped_formula (d : EdgeData) (g : ℚ) :
    (d.green_score = some (.F g) →
        phase2Hei d = some (.num (1 - g))
        ∧ (0 ≤ g → g ≤ 1 → (0 : ℚ) ≤ 1 - g ∧ 1 - g ≤ 1))
    ∧ (d.green_score = none → phase2Hei d = some (.num (9 / 10)))
    ∧ (∀ s, d.green_score = some (.S s) → phase2Hei d = none) := by
  refine ⟨?_, ?_, ?_⟩
  · intro h
    exact ⟨by simp [phase2Hei, h], fun h0 h1 => ⟨by linarith, by linarith⟩⟩
  · intro h
    simp only [phase2Hei, h, Option.getD_none, Option.some.injEq, Fl.num.injEq]
    norm_num
  · intro s h; simp [phase2Hei, h]

/-- Witness for the amended C2 theorem at green_score = 3/4. -/
theorem hei_unclamped_formula_witness :
    phase2Hei ⟨none, some (.F (3 / 4)), none, none, none⟩ = some (.num (1 - 3 / 4))
    ∧ ((0 : ℚ) ≤ 3 / 4 → (3 / 4 : ℚ) ≤ 1 → (0 : ℚ) ≤ 1 - 3 / 4 ∧ (1 : ℚ) - 3 / 4 ≤ 1) :=
  (hei_unclamped_formula ⟨none, some (.F (3 / 4)), none, none, none⟩ (3 / 4)).1 rfl

/-- C3 counterexample: for an absent green_score the derivation substitutes
0.1 (giving hei = 0.9), not the claimed midpoint 0.5; an unparseable
green_score is not substituted at all (the derivation raises). -/
theorem green_score_default_not_midpoint :
    phase2Hei ⟨none, none, none, none, none⟩ = some (.num (9 / 10))
    ∧ (9 / 10 : ℚ) ≠ 1 - 1 / 2
    ∧ phase2Hei ⟨none, some (.S "bad"), none, none, none⟩ = none := by
  refine ⟨?_, by norm_num, rfl⟩
  simp only [phase2Hei, Option.getD_none, Option.some.injEq, Fl.num.injEq]
  norm_num

/-- C3 (amended): the HEI derivation substitutes 0.1 for an absent
green_score; the scenario recompute substitutes 0.5 for the derived hei
attribute (not for green_score) when hei is missing or unparseable. -/
theorem green_score_and_hei_defaults (d : EdgeData) :
    (d.green_score = none → phase2Hei d = some (.num (9 / 10)))
    ∧ (d.hei = none → coerceHei d = .num (1 / 2))
    ∧ (∀ v, d.hei = some v → pyFloat v = none → coerceHei d = .num (1 / 2)) := by
  refine ⟨?_, fun h => by simp [coerceHei, h], fun v h hv => by simp [coerceHei, h, hv]⟩
  intro h
  simp only [phase2Hei, h, Option.getD_none, Option.some.injEq, Fl.num.injEq]
  norm_num

/-- Witness for the amended C3 theorem on an edge with no attributes. -/
theorem green_score_and_hei_defaults_witness :
    coerceHei ⟨none, none, none, none, none⟩ = .num (1 / 2) :=
  (green_score_and_hei_defaults ⟨none, none, none, none, none⟩).2.1 rfl

/-- C4 counterexample: on an edge whose stored length is -5.0 (never
validated for positivity) and hei 0.5 > 0, the heatwave cost -80 is strictly
below the standard cost -30, refuting the claimed inequality. -/
theorem heatwave_cost_not_monotone_negative_length :
    coerceHei ⟨some (.F (-5)), none, some (.F (1 / 2)), none, none⟩ = .num (1 / 2)
    ∧ (0 : ℚ) < 1 / 2
    ∧ (recompute (heat_multiplier "Heatwave Alert (40°C)")
        ⟨some (.F (-5)), none, some (.F (1 / 2)), none, none⟩).current_cost = some (.F (-80))
    ∧ (recompute (heat_multiplier "Standard Day (25°C)")
        ⟨some (.F (-5)), none, some (.F (1 / 2)), none, none⟩).current_cost = some (.F (-30))
    ∧ ¬ ((-30 : ℚ) ≤ -80) := by
  have h10 : heat_multiplier "Standard Day (25°C)" = 10 := by decide
  have h30 : heat_multiplier "Heatwave Alert (40°C)" = 30 := by decide
  refine ⟨rfl, by norm_num, ?_, ?_, by norm_num⟩
  · rw [h30]
    simp only [recompute, coerceLength, coerceHei, pyFloat, Option.getD_some, Fl.mul, Fl.add,
      flToVal, Val.F.injEq, Option.some.injEq]
    norm_num
  · rw [h10]
    simp only [recompute, coerceLength, coerceHei, pyFloat, Option.getD_some, Fl.mul, Fl.add,
      flToVal, Val.F.injEq, Option.some.injEq]
    norm_num

/-- C4 (amended): exactly two scenarios are offered, mapping to multipliers 10
(standard) and 30 (heatwave); on every edge whose coerced length is
nonnegative and whose coerced hei is positive, the heatwave cost dominates
the standard cost. -/
theorem two_scenarios_and_heatwave_dominates (d : EdgeData) (L H : ℚ)
    (hL : coerceLength d = .num L) (hLnn : 0 ≤ L)
    (hH : coerceHei d = .num H) (hHpos : 0 < H) :
    scenarioOptions.length = 2
    ∧ heat_multiplier (scenarioOptions.getD 0 "") = 10
    ∧ heat_multiplier (scenarioOptions.getD 1 "") = 30
    ∧ (recompute (heat_multiplier "Standard Day (25°C)") d).current_cost
        = some (.F (L * (1 + H * 10)))
    ∧ (recompute (heat_multiplier "Heatwave Alert (40°C)") d).current_cost
        = some (.F (L * (1 + H * 30)))
    ∧ L * (1 + H * 10) ≤ L * (1 + H * 30) := by
  have h10 : heat_multiplier "Standard Day (25°C)" = 10 := by decide
  have h30 : heat_multiplier "Heatwave Alert (40°C)" = 30 := by decide
  refine ⟨rfl, by decide, by decide, ?_, ?_, ?_⟩
  · rw [h10]; simp [recompute, hL, hH, Fl.mul, Fl.add, flToVal]
  · rw [h30]; simp [recompute, hL, hH, Fl.mul, Fl.add, flToVal]
  · nlinarith [mul_nonneg hLnn hHpos.le]

/-- Witness for the amended C4 theorem at length 100, hei 0.5. -/
theorem two_scenarios_and_heatwave_dominates_witness :
    scenarioOptions.length = 2
    ∧ heat_multiplier (scenarioOptions.getD 0 "") = 10
    ∧ heat_multiplier (scenarioOptions.getD 1 "") = 30
    ∧ (recompute (heat_multiplier "Standard Day (25°C)")
        ⟨some (.F 100), none, some (.F (1 / 2)), none, none⟩).current_cost
        = some (.F (100 * (1 + (1 / 2) * 10)))
    ∧ (recompute (heat_multiplier "Heatwave Alert (40°C)")
        ⟨some (.F 100), none, some (.F (1 / 2)), none, none⟩).current_cost
        = some (.F (100 * (1 + (1 / 2) * 30)))
    ∧ (100 : ℚ) * (1 + (1 / 2) * 10) ≤ 100 * (1 + (1 / 2) * 30) :=
  two_scenarios_and_heatwave_dominates ⟨some (.F 100), none, some (.F (1 / 2)), none, none⟩
    100 (1 / 2) rfl (by norm_num) rfl (by norm_num)

/-- C5: the full-graph cost recompute is idempotent — the loop reads only
`length` and `hei` and writes only `current_cost`, so a second pass with the
same multiplier reproduces every edge's `current_cost` exactly. -/
theorem recompute_idempotent (m : ℚ) (es : List EdgeData) :
    recomputeAll m (recomputeAll m es) = recomputeAll m es := by
  have h : (recompute m ∘ recompute m) = recompute m := funext fun d => rfl
  simp only [recomputeAll, List.map_map, h]

/-- Invariant of the `_nearest_node` scan: starting from any accumulator, the
fold either never updates (every candidate is at least the accumulator's
distance) or returns the first candidate attaining the strict minimum. -/
theorem nearest_fold_spec (lat lon : ℝ) (l : List (ℕ × ℝ × ℝ)) (acc : Option ℕ × EReal) :
    (l.foldl (nnStep lat lon) acc = acc
      ∧ ∀ p ∈ l, acc.2 ≤ ((nnDist lat lon p : ℝ) : EReal))
    ∨ (∃ i : Fin l.length,
        l.foldl (nnStep lat lon) acc
          = (some (l.get i).1, ((nnDist lat lon (l.get i) : ℝ) : EReal))
        ∧ ((nnDist lat lon (l.get i) : ℝ) : EReal) < acc.2
        ∧ (∀ j : Fin l.length, nnDist lat lon (l.get i) ≤ nnDist lat lon (l.get j))
        ∧ (∀ j : Fin l.length, (j : ℕ) < (i : ℕ) →
            nnDist lat lon (l.get i) < nnDist lat lon (l.get j))) := by
  induction l generalizing acc with
  | nil => exact Or.inl ⟨rfl, by simp⟩
  | cons a t ih =>
      by_cases h : ((nnDist lat lon a : ℝ) : EReal) < acc.2
      · have hstep : nnStep lat lon acc a = (some a.1, ((nnDist lat lon a : ℝ) : EReal)) := by
          simp only [nnStep, if_pos h]
        have hfold : (a :: t).foldl (nnStep lat lon) acc
            = t.foldl (nnStep lat lon) (some a.1, ((nnDist lat lon a : ℝ) : EReal)) := by
          rw [List.foldl_cons, hstep]
        rcases ih (some a.1, ((nnDist lat lon a : ℝ) : EReal)) with
          ⟨heq, hall⟩ | ⟨i, heq, hlt, hmin, hfirst⟩
        · refine Or.inr ⟨⟨0, Nat.succ_pos _⟩, ?_, h, ?_, ?_⟩
          · rw [hfold, heq]
            rfl
          · intro j
            refine Fin.cases ?_ ?_ j
            · exact le_refl _
            · intro k
              have hk : ((nnDist lat lon a : ℝ) : EReal)
                  ≤ ((nnDist lat lon (t.get k) : ℝ) : EReal) :=
                hall (t.get k) (List.mem_iff_get.mpr ⟨k, rfl⟩)
              exact_mod_cast hk
          · intro j hj
            exact absurd hj (Nat.not_lt_zero _)
        · have hlt2 : ((nnDist lat lon (t.get i) : ℝ) : EReal)
              < ((nnDist lat lon a : ℝ) : EReal) := hlt
          refine Or.inr ⟨i.succ, ?_, lt_trans hlt2 h, ?_, ?_⟩
          · rw [hfold, heq]
            rfl
          · intro j
            refine Fin.cases ?_ ?_ j
            · have hia : nnDist lat lon (t.get i) < nnDist lat lon a := by exact_mod_cast hlt2
              exact hia.le
            · intro k; exact hmin k
          · intro j
            refine Fin.cases ?_ ?_ j
            · intro _
              exact_mod_cast hlt2
            · intro k hk
              exact hfirst k (Nat.lt_of_succ_lt_succ hk)
      · have hstep : nnStep lat lon acc a = acc := by
          simp only [nnStep, if_neg h]
        have hfold : (a :: t).foldl (nnStep lat lon) acc = t.foldl (nnStep lat lon) acc := by
          rw [List.foldl_cons, hstep]
        have hle : acc.2 ≤ ((nnDist lat lon a : ℝ) : EReal) := le_of_not_lt h
        rcases ih acc with ⟨heq, hall⟩ | ⟨i, heq, hlt, hmin, hfirst⟩
        · refine Or.inl ⟨by rw [hfold, heq], ?_⟩
          intro p hp
          rcases List.mem_cons.mp hp with rfl | hp'
          · exact hle
          · exact hall p hp'
        · refine Or.inr ⟨i.succ, ?_, hlt, ?_, ?_⟩
          · rw [hfold, heq]
            rfl
          · intro j
            refine Fin.cases ?_ ?_ j
            · have h2 : ((nnDist lat lon (t.get i) : ℝ) : EReal)
                  < ((nnDist lat lon a : ℝ) : EReal) := lt_of_lt_of_le hlt hle
              have hia : nnDist lat lon (t.get i) < nnDist lat lon a := by exact_mod_cast h2
              exact hia.le
            · intro k; exact hmin k
          · intro j
            refine Fin.cases ?_ ?_ j
            · intro _
              have h2 : ((nnDist lat lon (t.get i) : ℝ) : EReal)
                  < ((nnDist lat lon a : ℝ) : EReal) := lt_of_lt_of_le hlt hle
              exact_mod_cast h2
            · intro k hk
              exact hfirst k (Nat.lt_of_succ_lt_succ hk)

/-- C6: `_nearest_node` returns `(None, +infinity)` on an empty node
collection, and otherwise returns a node of minimal haversine distance
(Earth radius 6,371,000 m, inside `_haversine`) to the query, together with
that distance, breaking distance ties in favor of the first-encountered node
in iteration order (every strictly earlier node is strictly farther). -/
theorem nearest_node_spec (lat lon : ℝ) (nodes : List (ℕ × ℝ × ℝ)) :
    _nearest_node lat lon [] = (none, (⊤ : EReal))
    ∧ (nodes ≠ [] → ∃ i : Fin nodes.length,
        _nearest_node lat lon nodes
          = (some (nodes.get i).1,
             ((_haversine lat lon (nodes.get i).2.1 (nodes.get i).2.2 : ℝ) : EReal))
        ∧ (∀ j : Fin nodes.length,
            _haversine lat lon (nodes.get i).2.1 (nodes.get i).2.2
              ≤ _haversine lat lon (nodes.get j).2.1 (nodes.get j).2.2)
        ∧ (∀ j : Fin nodes.length, (j : ℕ) < (i : ℕ) →
            _haversine lat lon (nodes.get i).2.1 (nodes.get i).2.2
              < _haversine lat lon (nodes.get j).2.1 (nodes.get j).2.2)) := by
  refine ⟨rfl, ?_⟩
  intro hne
  rcases nearest_fold_spec lat lon nodes (none, ⊤) with ⟨heq, hall⟩ | ⟨i, heq, hlt, hmin, hfirst⟩
  · exfalso
    obtain ⟨a, t, rfl⟩ := List.exists_cons_of_ne_nil hne
    have htop := hall a (List.mem_cons_self a t)
    exact (EReal.coe_lt_top (nnDist lat lon a)).not_le htop
  · exact ⟨i, heq, hmin, hfirst⟩

/-- Witness for the C6 theorem on a one-node collection. -/
theorem nearest_node_spec_witness :
    ∃ i : Fin demoNodes.length,
      _nearest_node 0 0 demoNodes
        = (some (demoNodes.get i).1,
           ((_haversine 0 0 (demoNodes.get i).2.1 (demoNodes.get i).2.2 : ℝ) : EReal))
      ∧ (∀ j : Fin demoNodes.length,
          _haversine 0 0 (demoNodes.get i).2.1 (demoNodes.get i).2.2
            ≤ _haversine 0 0 (demoNodes.get j).2.1 (demoNodes.get j).2.2)
      ∧ (∀ j : Fin demoNodes.length, (j : ℕ) < (i : ℕ) →
          _haversine 0 0 (demoNodes.get i).2.1 (demoNodes.get i).2.2
            < _haversine 0 0 (demoNodes.get j).2.1 (demoNodes.get j).2.2) :=
  (nearest_node_spec 0 0 demoNodes).2 (by simp [demoNodes])

/-- C7 counterexample: an edge whose cool_cost is NaN keeps its NaN weight
through the repair pass (`float(nan)` succeeds), so a NaN weight does survive
into routing; and a missing cool_cost whose length fallback is unparseable
makes the pass raise instead of substituting 10.0. -/
theorem nan_cool_cost_survives_repair :
    repairCool ⟨some (.F 7), none, none, some .NaN, none⟩
      = .ok (⟨some (.F 7), none, none, some .NaN, none⟩, false, false)
    ∧ Val.NaN ≠ Val.F 7
    ∧ repairCool ⟨some (.S "abc"), none, none, none, none⟩ = .error () := by decide

/-- C7 (amended): the repair pass stores `float(length)` for a missing/None
cool_cost (10.0 only when length is itself absent; an unparseable length makes
the pass raise), keeps any float-coercible cool_cost — including NaN —
unchanged in value and uncounted, stores the first element of a non-coercible
string that parses as a nonempty list/tuple literal, falls back to
`float(length)` for every other non-coercible string, and counts those
repairs via the fixed flag. -/
theorem repair_pass_policy (d : EdgeData) :
    (d.cool_cost = none → d.length = none →
        repairCool d = .ok ({ d with cool_cost := some (.F 10) }, true, false))
    ∧ (∀ q, d.cool_cost = none → d.length = some (.F q) →
        repairCool d = .ok ({ d with cool_cost := some (.F q) }, true, false))
    ∧ (∀ v f, d.cool_cost = some v → pyFloat v = some f →
        repairCool d = .ok ({ d with cool_cost := some (flToVal f) }, false, false))
    ∧ (∀ w, d.cool_cost = none → d.length = some w → pyFloat w = none →
        repairCool d = .error ())
    ∧ (∀ s x xs, d.cool_cost = some (.S s) → pyFloat (.S s) = none →
        literalEval s = some (.lst (x :: xs)) →
        repairCool d = .ok ({ d with cool_cost := some (flToVal x) }, false, true))
    ∧ (∀ s g, d.cool_cost = some (.S s) → pyFloat (.S s) = none →
        (literalEval s = none ∨ literalEval s = some .other ∨ literalEval s = some (.lst [])) →
        lengthFloat d = some g →
        repairCool d = .ok ({ d with cool_cost := some (flToVal g) }, false, true)) := by
  refine ⟨?_, ?_, ?_, ?_, ?_, ?_⟩
  · intro h1 h2
    simp [repairCool, lengthFloat, h1, h2, flToVal]
  · intro q h1 h2
    simp [repairCool, lengthFloat, h1, h2, pyFloat, flToVal]
  · intro v f h1 h2
    cases v <;> simp_all [repairCool, pyFloat]
  · intro w h1 h2 h3
    simp [repairCool, lengthFloat, h1, h2, h3]
  · intro s x xs h1 h2 h3
    simp [repairCool, h1, h2, h3]
  · intro s g h1 h2 hcase h3
    rcases hcase with h | h | h <;> simp [repairCool, h1, h2, h, h3]

/-- Witness for the amended C7 theorem: a missing cool_cost is repaired to the
edge's length value 7. -/
theorem repair_pass_policy_witness :
    repairCool ⟨some (.F 7), none, none, none, none⟩
      = .ok (⟨some (.F 7), none, none, some (.F 7), none⟩, true, false) :=
  (repair_pass_policy ⟨some (.F 7), none, none, none, none⟩).2.1 7 rfl rfl

/-- C8 counterexample: negative and zero stored lengths are floats, so
`float(...)` succeeds and no 10.0 substitution happens — the cost model uses
the non-positive length as-is. -/
theorem nonpositive_length_not_replaced :
    coerceLength ⟨some (.F (-5)), none, none, none, none⟩ = .num (-5)
    ∧ Fl.num (-5) ≠ .num 10
    ∧ coerceLength ⟨some (.F 0), none, none, none, none⟩ = .num 0
    ∧ Fl.num 0 ≠ .num 10
    ∧ ¬ ((0 : ℚ) < -5) := by decide

/-- C8 (amended): the 10.0 default is substituted only when the length
attribute is absent or raises under `float(...)`; any float-coercible value,
including zero and negatives, is used unchanged — positivity is never
checked. -/
theorem length_coercion_policy (d : EdgeData) :
    (d.length = none → coerceLength d = .num 10)
    ∧ (∀ v, d.length = some v → pyFloat v = none → coerceLength d = .num 10)
    ∧ (∀ q, d.length = some (.F q) → coerceLength d = .num q) := by
  refine ⟨fun h => by simp [coerceLength, h],
          fun v h hv => by simp [coerceLength, h, hv],
          fun q h => by simp [coerceLength, h, pyFloat]⟩

/-- Witness for the amended C8 theorem: an absent length coerces to 10. -/
theorem length_coercion_policy_witness :
    coerceLength ⟨none, none, none, none, none⟩ = .num 10 :=
  (length_coercion_policy ⟨none, none, none, none, none⟩).1 rfl

/-- C9: the score-injection index reconstruction accepts a pre-built 3-level
MultiIndex, else the explicit `(u, v, key)` columns, else positional order
when the record count equals the edge count, and otherwise raises a
ValueError — it never silently produces a partially scored graph. -/
theorem score_index_reconstruction (g : GdfInfo) (n : ℕ) :
    (g.isMultiIndex3 = true → rebuildScoredIndex g n = .ok .preIndexed)
    ∧ (g.isMultiIndex3 = false → "u" ∈ g.cols → "v" ∈ g.cols → "key" ∈ g.cols →
        rebuildScoredIndex g n = .ok .fromCols)
    ∧ (g.isMultiIndex3 = false → ¬ ("u" ∈ g.cols ∧ "v" ∈ g.cols ∧ "key" ∈ g.cols) →
        g.nrows = n → rebuildScoredIndex g n = .ok .positional)
    ∧ (g.isMultiIndex3 = false → ¬ ("u" ∈ g.cols ∧ "v" ∈ g.cols ∧ "key" ∈ g.cols) →
        g.nrows ≠ n → rebuildOk g n = false) := by
  refine ⟨?_, ?_, ?_, ?_⟩
  · intro h; simp [rebuildScoredIndex, h]
  · intro h h1 h2 h3; simp [rebuildScoredIndex, h, h1, h2, h3]
  · intro h h1 h2; simp [rebuildScoredIndex, h, h1, h2]
  · intro h h1 h2; simp [rebuildOk, rebuildScoredIndex, h, h1, h2]

/-- Witness for the C9 theorem: explicit u/v/key columns win even when the
row count mismatches. -/
theorem score_index_reconstruction_witness :
    rebuildScoredIndex ⟨false, ["u", "v", "key"], 7⟩ 9 = .ok .fromCols :=
  (score_index_reconstruction ⟨false, ["u", "v", "key"], 7⟩ 9).2.1 rfl
    (by decide) (by decide) (by decide)

/-- C10: on a 100-node graph whose largest weakly-connected component is
{0, …, 49}, the test script's selection routes between raw-order nodes 40 and
90 — node 90 lies outside the component — because lines 67-69 of
test_route_Version2.py unconditionally overwrite the component-based re-pick
that the code's own comment says exists "to ensure a path exists". -/
theorem test_route_ignores_component_pick :
    testRouteSelection (List.range 100) (List.range 50) = .ok (40, 90)
    ∧ 40 ∈ List.range 50
    ∧ 90 ∉ List.range 50 := by decide
